import Mathlib

/-!
Formal model of the loan-origination orchestration system (MCP client/server).

The development shallowly embeds the Python sources:
* `MCPServer/server.py` — the tool service: customer table, `verify_kyc`,
  `compute_emi`, `underwrite_loan`, `generate_sanction_letter`.
* `workerAgents/verification.py`, `underwriting.py`, `sanction.py` — each
  worker's `final_status_node` and the worker graph wiring.
* `master.py` — the Master orchestrator's update application.
* `api.py` / `sharedState/state.py` — the session message channel.

Python values flowing through the workers are modelled by the `Json` type
(`Json.null` doubles as Python `None`, exactly as `json.loads` maps JSON
`null` to `None`).  Python runtime exceptions that the claims care about
(`AttributeError` on `None.get`, `ZeroDivisionError`) are modelled with an
explicit `Except PyErr` result.  Numbers are modelled as rationals; the
decision logic in the sources compares and branches on numbers but never
depends on binary floating-point rounding for the properties proved here.
The outcome of `json.loads` on a tool message's text is carried as an
`Option Json` field of the message (`none` models a parse failure), since
the JSON parser itself is Python library code, not part of this repository.
-/

mutual
/-- JSON-like Python value (dicts, strings, numbers, booleans, `None`).
Arrays are omitted: no payload handled by the embedded code is an array,
and any non-object value exercises the same code paths as the scalars. -/
inductive Json where
  | null
  | bool (b : Bool)
  | num (q : ℚ)
  | str (s : String)
  | obj (kvs : JObj)
deriving Repr, DecidableEq

/-- A Python dict with string keys, as an association list. -/
inductive JObj where
  | nil
  | cons (k : String) (v : Json) (rest : JObj)
deriving Repr, DecidableEq
end

/-- First binding for a key, as Python dict lookup (keys are unique in every
object built by the embedded code). -/
def JObj.get : JObj → String → Option Json
  | .nil, _ => none
  | .cons k v rest, key => if k == key then some v else rest.get key

/-- Python `d.get(key, default)`: the stored value when the key is present
(a stored `None` is returned as `Json.null`, not replaced by the default),
else the default.  Python `d.get(key)` is `getD d key Json.null`. -/
def JObj.getD (kvs : JObj) (key : String) (dflt : Json) : Json :=
  (kvs.get key).getD dflt

/-- Whether a value is Python `None` (models `v is None`). -/
def Json.isNone : Json → Bool
  | .null => true
  | _ => false

/-- Python truthiness of a value (models `if v:` / `bool(v)`). -/
def Json.truthy : Json → Bool
  | .null => false
  | .bool b => b
  | .num q => !(q == 0)
  | .str s => !(s == "")
  | .obj .nil => false
  | .obj (.cons _ _ _) => true

/-- Python runtime exceptions relevant to the embedded code paths, plus the
server's `ToolError`. -/
inductive PyErr where
  | attributeError
  | zeroDivisionError
  | toolError (msg : String)
deriving Repr, DecidableEq

/-! ## The tool service (`MCPServer/server.py`) -/

/-- One row of the mock customer table. -/
structure Customer where
  name : String
  age : Int
  city : String
  phone : String
  email : String
  pre_approved_limit : Int
  salary_monthly : Int
  credit_score : Int
deriving Repr, DecidableEq

/-- `CUSTOMERS` — the ten synthetic customers of `server.py`. -/
def CUSTOMERS : List (String × Customer) :=
  [ ("CUST001", ⟨"Asha Verma", 32, "Pune", "9810000001", "asha@example.com", 300000, 60000, 745⟩)
  , ("CUST002", ⟨"Rahul Sharma", 29, "Delhi", "9810000002", "rahul@example.com", 200000, 45000, 712⟩)
  , ("CUST003", ⟨"Sneha Iyer", 35, "Bengaluru", "9810000003", "sneha@example.com", 400000, 85000, 780⟩)
  , ("CUST004", ⟨"Vikram Singh", 40, "Lucknow", "9810000004", "vikram@example.com", 150000, 30000, 690⟩)
  , ("CUST005", ⟨"Nisha Patel", 27, "Ahmedabad", "9810000005", "nisha@example.com", 250000, 52000, 710⟩)
  , ("CUST006", ⟨"Arjun Rao", 31, "Hyderabad", "9810000006", "arjun@example.com", 350000, 70000, 760⟩)
  , ("CUST007", ⟨"Meera Desai", 30, "Surat", "9810000007", "meera@example.com", 180000, 40000, 695⟩)
  , ("CUST008", ⟨"Karan Mehta", 33, "Mumbai", "9810000008", "karan@example.com", 320000, 65000, 735⟩)
  , ("CUST009", ⟨"Priya Nair", 28, "Kochi", "9810000009", "priya@example.com", 280000, 48000, 725⟩)
  , ("CUST010", ⟨"Sourav Ghosh", 36, "Kolkata", "9810000010", "sourav@example.com", 500000, 90000, 790⟩) ]

/-- `CUSTOMERS.get(customer_id)` in `server.py`. -/
def getCustomer (customer_id : String) : Option Customer :=
  (CUSTOMERS.find? (fun kv => kv.1 == customer_id)).map (fun kv => kv.2)

/-- Python `base ** e` on numbers: raises `ZeroDivisionError` for
`0.0 ** negative`, otherwise the mathematical power. -/
def pyPow (base : ℚ) (e : Int) : Except PyErr ℚ :=
  if base = 0 ∧ e < 0 then .error .zeroDivisionError else .ok (base ^ e)

/-- `compute_emi(P, annual_rate, n_months)` from `server.py`, with Python's
division-by-zero behaviour made explicit: `r == 0` with `n_months == 0`
divides by zero, and a zero denominator `(1+r)**n - 1` divides by zero. -/
def compute_emi (P : ℚ) (annual_rate : ℚ) (n_months : Int) : Except PyErr ℚ :=
  let r := annual_rate / 12 / 100
  if r = 0 then
    if (n_months : ℚ) = 0 then .error .zeroDivisionError
    else .ok (P / (n_months : ℚ))
  else
    match pyPow (1 + r) n_months with
    | .error e => .error e
    | .ok p =>
      if p - 1 = 0 then .error .zeroDivisionError
      else .ok (P * r * p / (p - 1))

/-- The `status: ok, result: ...` envelope every tool returns. -/
def okEnvelope (result : Json) : Json :=
  .obj (.cons "status" (.str "ok") (.cons "result" result .nil))

/-- `verify_kyc(customer_id, phone)` from `server.py`: `phone_verified` is
the comparison with the stored phone, `address_verified` is always `True`. -/
def verify_kyc (customer_id : String) (phone : String) : Except PyErr Json :=
  match getCustomer customer_id with
  | none => .error (.toolError (String.append "customer not found: " customer_id))
  | some cust =>
    .ok (okEnvelope (.obj
      (.cons "phone_verified" (.bool (cust.phone == phone))
      (.cons "address_verified" (.bool true) .nil))))

/-- `underwrite_loan` from `server.py`, branch for branch.  The Python
`if not salary_slip_resource` test is truthiness: `None` and the empty
string both count as absent. -/
def underwrite_loan (customer_id : String) (requested_amount : Int)
    (tenure_months : Int) (annual_rate : ℚ)
    (salary_provided : Option Int) (salary_slip_resource : Option String) :
    Except PyErr Json :=
  match getCustomer customer_id with
  | none => .error (.toolError (String.append "customer not found: " customer_id))
  | some cust =>
    let score := cust.credit_score
    let pre_limit := cust.pre_approved_limit
    let requested := requested_amount
    let tenure := tenure_months
    if score < 700 then
      .ok (okEnvelope (.obj
        (.cons "decision" (.str "reject")
        (.cons "reason" (.str "credit_score_below_700")
        (.cons "credit_score" (.num score) .nil)))))
    else if requested ≤ pre_limit then
      match compute_emi requested annual_rate tenure with
      | .error e => .error e
      | .ok emi =>
        .ok (okEnvelope (.obj
          (.cons "decision" (.str "approve")
          (.cons "emi" (.num emi)
          (.cons "reason" (.str "within_pre_approved_limit") .nil)))))
    else if requested ≤ 2 * pre_limit then
      if (salary_slip_resource = none ∨ salary_slip_resource = some "")
          ∧ salary_provided = none then
        .ok (okEnvelope (.obj
          (.cons "decision" (.str "require_salary_slip")
          (.cons "reason" (.str "salary_slip_required") .nil))))
      else
        let salary : Int :=
          match salary_provided with
          | some s => s
          | none => cust.salary_monthly
        match compute_emi requested annual_rate tenure with
        | .error e => .error e
        | .ok emi =>
          if emi ≤ (1/2 : ℚ) * salary then
            .ok (okEnvelope (.obj
              (.cons "decision" (.str "approve")
              (.cons "emi" (.num emi)
              (.cons "reason" (.str "emi_within_50pct_salary") .nil)))))
          else
            .ok (okEnvelope (.obj
              (.cons "decision" (.str "reject")
              (.cons "reason" (.str "emi_exceeds_50pct_salary")
              (.cons "emi" (.num emi)
              (.cons "salary_monthly" (.num salary) .nil))))))
    else
      .ok (okEnvelope (.obj
        (.cons "decision" (.str "reject")
        (.cons "reason" (.str "amount_exceeds_2x_pre_approved")
        (.cons "pre_limit" (.num pre_limit)
        (.cons "requested" (.num requested) .nil))))))

/-! ## Worker finalization nodes (`workerAgents/*.py`) -/

/-- The last `ToolMessage` of a worker scratchpad: its text `content` and
the outcome of `json.loads content` (`none` models a raise, e.g. on the
`Error: ...` text a failed tool call produces). -/
structure ToolMsg where
  content : String
  parsed : Option Json
deriving Repr, DecidableEq

/-- `json.loads(msg.content)` guarded by `try/except`: an unparsable text is
wrapped as a one-key `raw` dict, exactly as in every worker's finalizer. -/
def parseOrRawWrap (m : ToolMsg) : Json :=
  match m.parsed with
  | some j => j
  | none => .obj (.cons "raw" (.str m.content) .nil)

/-- `final_status_node` of `workerAgents/verification.py`.  Its argument is
the most recent `ToolMessage` of the scratchpad (`none` when no tool ran).
After the parse-or-wrap step the code runs `kyc_result.get("result")` and
then `result.get(...)` unconditionally; both raise `AttributeError` when
the receiver is not a dict (in particular when it is `None`). -/
def verification_final_status_node (lastToolMsg : Option ToolMsg) :
    Except PyErr (String × Json) :=
  match lastToolMsg with
  | none => .ok ("failed", .obj .nil)
  | some m =>
    let kyc_result := parseOrRawWrap m
    match kyc_result with
    | .obj kvs =>
      match kvs.get "result" with
      | some (.obj rkvs) =>
        let p_verified := (rkvs.getD "phone_verified" (.bool false)).truthy
        let a_verified := (rkvs.getD "address_verified" (.bool false)).truthy
        let status :=
          if p_verified && a_verified then "verified"
          else if p_verified || a_verified then "pending"
          else "failed"
        .ok (status, kyc_result)
      | _ => .error .attributeError
    | _ => .error .attributeError

/-- The sanction-relevant slice of the shared state. -/
structure SanctionState where
  sanction_letter_resource : Json
  sanction_letter_path : Json
  sanction_letter_status : Json
deriving Repr, DecidableEq

/-- The `result` dict the sanction finalizer works on: `.get("result", {})`
coerced to `{}` when not a dict, applied to the parsed-or-wrapped payload
(defined only for dict payloads; non-dict payloads raise earlier). -/
def sanction_result_dict (kvs : JObj) : JObj :=
  match kvs.get "result" with
  | some (.obj rkvs) => rkvs
  | _ => .nil

/-- `final_status_node` of `workerAgents/sanction.py`.  With no tool message
it only prints a debug line and returns the state untouched; with one it
reads `sanction_letter_resource` / `sanction_letter_path` from the result
dict and grants status `generated` only when both are non-`None`.  A payload
whose JSON top level is not an object makes `sanction_result.get` raise. -/
def sanction_final_status_node (lastToolMsg : Option ToolMsg)
    (state : SanctionState) : Except PyErr SanctionState :=
  match lastToolMsg with
  | none => .ok state
  | some m =>
    match parseOrRawWrap m with
    | .obj kvs =>
      let result := sanction_result_dict kvs
      let resource := result.getD "sanction_letter_resource" .null
      let path := result.getD "sanction_letter_path" .null
      let status : String :=
        if !resource.isNone && !path.isNone then "generated" else "failed"
      .ok { sanction_letter_resource := resource
            sanction_letter_path := path
            sanction_letter_status := .str status }
    | _ => .error .attributeError

/-- The inputs `final_status_node` of `workerAgents/underwriting.py` reads
from the shared state (set earlier by the Master and the Sales worker). -/
structure UnderwritingCtx where
  customer_id : String
  approved_amount : Int
  tenure_months : Int
  interest_rate : ℚ
  salary_monthly : Int
deriving Repr, DecidableEq

/-- The fields the underwriting finalizer writes back into the state. -/
structure UnderwritingOut where
  salary_slip_resource : Json
  underwriting_status : Json
  underwriting_input : JObj
  underwriting_result : JObj
deriving Repr, DecidableEq

/-- `final_status_node` of `workerAgents/underwriting.py`.  Unlike the
verification finalizer, `underwrite.get("result")` sits outside the
`if last_tool_msg is not None` block, so a missing tool message also
reaches the `result.get(...)` calls — which raise `AttributeError`
whenever `result` is not a dict (`None` included).  `underwriting_input`
records `customer_info["salary_monthly"]` under the key `annual_rate`. -/
def underwriting_final_status_node (ctx : UnderwritingCtx)
    (lastToolMsg : Option ToolMsg) : Except PyErr UnderwritingOut :=
  let underwrite : Json :=
    match lastToolMsg with
    | none => .obj .nil
    | some m => parseOrRawWrap m
  match underwrite with
  | .obj kvs =>
    match kvs.get "result" with
    | some (.obj rkvs) =>
      .ok { salary_slip_resource := rkvs.getD "salary_slip_resource" .null
            underwriting_status := rkvs.getD "decision" .null
            underwriting_input :=
              .cons "customer_id" (.str ctx.customer_id)
              (.cons "requested_amount" (.num ctx.approved_amount)
              (.cons "tenure_months" (.num ctx.tenure_months)
              (.cons "annual_rate" (.num ctx.salary_monthly) .nil)))
            underwriting_result := rkvs }
    | _ => .error .attributeError
  | _ => .error .attributeError

/-! ## Master orchestrator (`master.py`) -/

/-- The structured decision the Master's oracle returns (`Router` model in
`master.py`); extraction fields are optional. -/
structure Router where
  response_to_user : String
  next_worker : String
  update_customer_id : Option String
  update_requested_amount : Option Int
  update_preferred_tenure : Option Int
  update_max_interest : Option ℚ
deriving Repr, DecidableEq

/-- The partial state update `master_llm_node` returns; `none` means the key
is absent from the update dict. `negotiated_offer = some JObj.nil` is the
explicit reset to the empty dict. -/
structure MasterUpdates where
  ai_message : String
  next_worker : String
  customer_id : Option String
  flow_stage : Option String
  requested_amount : Option Int
  preferred_tenure_months : Option Int
  max_interest_rate : Option ℚ
  negotiated_offer : Option JObj
deriving Repr, DecidableEq

/-- Python truthiness of an optional string (`if response.update_customer_id:`). -/
def truthyOptStr : Option String → Bool
  | none => false
  | some s => !(s == "")

/-- Python truthiness of an optional int. -/
def truthyOptInt : Option Int → Bool
  | none => false
  | some n => !(n == 0)

/-- Python truthiness of an optional float. -/
def truthyOptRat : Option ℚ → Bool
  | none => false
  | some q => !(q == 0)

/-- The update-application tail of `master_llm_node` in `master.py`: how the
oracle's `Router` output is turned into the partial state update, including
every `if response.update_...:` truthiness guard and the final
`flow_stage`-from-`next_worker` overwrites. -/
def master_apply (response : Router) : MasterUpdates :=
  let u : MasterUpdates :=
    { ai_message := response.response_to_user
      next_worker := response.next_worker
      customer_id := none, flow_stage := none, requested_amount := none
      preferred_tenure_months := none, max_interest_rate := none
      negotiated_offer := none }
  let u :=
    if truthyOptStr response.update_customer_id then
      { u with customer_id := response.update_customer_id
               flow_stage := some "negotiation" }
    else u
  let u :=
    if truthyOptInt response.update_requested_amount then
      { u with requested_amount := response.update_requested_amount }
    else u
  let u :=
    if truthyOptInt response.update_preferred_tenure then
      { u with preferred_tenure_months := response.update_preferred_tenure }
    else u
  let u :=
    if truthyOptRat response.update_max_interest then
      { u with max_interest_rate := response.update_max_interest
               negotiated_offer := some JObj.nil }
    else u
  let u := if response.next_worker == "sales" then { u with flow_stage := some "negotiation" } else u
  let u := if response.next_worker == "verification" then { u with flow_stage := some "verification" } else u
  let u := if response.next_worker == "underwriting" then { u with flow_stage := some "underwriting" } else u
  let u := if response.next_worker == "sanction" then { u with flow_stage := some "sanction" } else u
  u

/-! ## The shared message channel (`sharedState/state.py`, `api.py`) -/

/-- One entry of a message channel; `id` is the unique message identifier the
`add_messages` reducer keys on. -/
structure Msg where
  id : ℕ
  role : String
  content : String
deriving Repr, DecidableEq

/-- The `add_messages` reducer of the `messages` channel: a message whose id
is already present replaces that entry in place, a fresh one is appended.
(`RemoveMessage` deletions exist in the library but no component of this
repository ever produces one, so they are not modelled.) -/
def addMessages (xs ys : List Msg) : List Msg :=
  ys.foldl
    (fun acc y =>
      if acc.any (fun m => m.id == y.id) then
        acc.map (fun m => if m.id == y.id then y else m)
      else acc ++ [y])
    xs

/-- One external user turn against a session, as `chat_endpoint` in `api.py`
drives it: the user message is appended to the channel, then each graph
node's returned message list is merged by `add_messages`, in node order. -/
def advanceMessages (msgs : List Msg) (user : Msg)
    (nodeOutputs : List (List Msg)) : List Msg :=
  nodeOutputs.foldl addMessages (msgs ++ [user])

/-! ## The worker tool-call loop (`build_verification_graph` wiring) -/

/-- Nodes of the compiled verification worker graph; `done` is `END`. -/
inductive VNode where
  | llm
  | tool
  | final
  | done
deriving Repr, DecidableEq

/-- One engine step of the verification worker graph as wired in
`build_verification_graph`: `START → llm_node`; after `llm_node` the
`tools_condition` router goes to `tool_node` when the oracle's reply carries
a tool call and to `final_logic` otherwise; `tool_node → llm_node`
unconditionally; `final_logic → END`.  The `oracle` argument abstracts the
LLM: `oracle n` tells whether its `n`-th reply proposes a tool call.  The
second component counts completed `llm_node` invocations. -/
def vstep (oracle : ℕ → Bool) : VNode × ℕ → VNode × ℕ
  | (.llm, n) => if oracle n then (.tool, n + 1) else (.final, n + 1)
  | (.tool, n) => (.llm, n)
  | (.final, n) => (.done, n)
  | (.done, n) => (.done, n)

/-- Run the verification worker graph for `k` engine steps from `START`. -/
def vrun (oracle : ℕ → Bool) (k : ℕ) : VNode × ℕ :=
  (vstep oracle)^[k] (.llm, 0)

/-! ## Claims -/

/-- C1.  The claim says an errored or unparsable tool result is wrapped as
raw text and finalized as `kyc_status = failed` without crashing.  The code
does wrap it, but then calls `kyc_result.get("result").get(...)` anyway:
the wrapper dict has no `result` key, so `result` is `None` and the
attribute access raises `AttributeError` — evaluated here at the `Error:`
text a failed `verify_kyc` call leaves as the last tool message. -/
theorem C1_unparsable_result_raises :
    verification_final_status_node
      (some ⟨"Error: customer not found: CUST999", none⟩) =
      .error .attributeError := rfl

/-- C2 counterexample.  The claim quantifies over every amount, tenure and
rate; at `CUST001` (credit score 745 ≥ 700) with `requested_amount =
100000 ≤ 300000`, `tenure_months = 0` and `annual_rate = 0`,
`compute_emi` divides by zero, so `underwrite_loan` raises instead of
returning decision `approve`. -/
theorem C2_zero_tenure_zero_rate_raises :
    underwrite_loan "CUST001" 100000 0 0 none none =
      .error .zeroDivisionError := by
  have hc : getCustomer "CUST001" =
      some ⟨"Asha Verma", 32, "Pune", "9810000001", "asha@example.com",
            300000, 60000, 745⟩ := rfl
  simp [underwrite_loan, hc, compute_emi]

/-- C5.  When the oracle proposes no tool call (the instructed behaviour for
`underwriting_status = reject`), the sanction finalizer finds no
`ToolMessage` and returns the state untouched: `sanction_letter_status`
stays `None` instead of being set to `failed` as the claim requires. -/
theorem C5_no_tool_message_leaves_status_unset :
    sanction_final_status_node none ⟨.null, .null, .null⟩ =
        .ok ⟨.null, .null, .null⟩ ∧
      (Json.null ≠ Json.str "failed") := ⟨rfl, by decide⟩

/-- C6.  The claim says a malformed tool result is converted into a failed
status at the node boundary and never escapes the worker.  In the
underwriting finalizer `underwrite.get("result")` runs even for the raw
wrapper dict (and even with no tool message at all), and the subsequent
`result.get(...)` raises `AttributeError`, which propagates out of the
node: evaluated here at an unparsable `Error:` text and at an empty
scratchpad. -/
theorem C6_malformed_result_escapes_node :
    underwriting_final_status_node ⟨"CUST005", 200000, 36, 14, 52000⟩
        (some ⟨"Error: Timeout", none⟩) = .error .attributeError ∧
      underwriting_final_status_node ⟨"CUST005", 200000, 36, 14, 52000⟩
        none = .error .attributeError := ⟨rfl, rfl⟩

/-- C8.  The claim says `underwriting_input.annual_rate` records the
negotiated interest rate actually sent (14.0 in the repository's own
example run for CUST005).  The code instead stores
`customer_info["salary_monthly"]` (52000) under that key. -/
theorem C8_underwriting_input_records_salary_as_rate :
    ∃ out,
      underwriting_final_status_node ⟨"CUST005", 200000, 36, 14, 52000⟩
          (some ⟨"", some (okEnvelope (.obj
            (.cons "decision" (.str "approve")
            (.cons "emi" (.num (49630/7))
            (.cons "reason" (.str "within_pre_approved_limit") .nil)))))⟩) =
        .ok out ∧
      out.underwriting_input.get "annual_rate" = some (Json.num 52000) ∧
      out.underwriting_input.get "annual_rate" ≠ some (Json.num 14) :=
  ⟨_, rfl, rfl, by decide⟩

/-- With a nonnegative rate and at least one month of tenure the EMI
computation of `server.py` always succeeds. -/
theorem compute_emi_isOk (P rate : ℚ) (n : Int) (hr : 0 ≤ rate) (hn : 1 ≤ n) :
    ∃ q, compute_emi P rate n = .ok q := by
  by_cases h0 : rate / 12 / 100 = 0
  · have hn' : ((n : ℚ)) ≠ 0 := by
      exact_mod_cast (show n ≠ 0 by omega)
    exact ⟨P / (n : ℚ), by simp [compute_emi, h0, hn']⟩
  · have hrpos : 0 < rate / 12 / 100 :=
      lt_of_le_of_ne (by positivity) (Ne.symm h0)
    have h1 : (1 : ℚ) < 1 + rate / 12 / 100 := by linarith
    have hbase : ¬((1 + rate / 12 / 100 : ℚ) = 0 ∧ n < 0) := by
      rintro ⟨hb, _⟩; linarith
    have hpow : (1 : ℚ) < (1 + rate / 12 / 100) ^ n :=
      one_lt_zpow₀ h1 (by omega)
    have hden : (1 + rate / 12 / 100 : ℚ) ^ n - 1 ≠ 0 :=
      sub_ne_zero.mpr (ne_of_gt hpow)
    exact ⟨P * (rate / 12 / 100) * (1 + rate / 12 / 100) ^ n /
             ((1 + rate / 12 / 100) ^ n - 1),
      by simp [compute_emi, h0, pyPow, hbase, hden]⟩

/-- C2 (amended).  A credit score below 700 yields a `reject` with reason
`credit_score_below_700` for every amount, tenure and rate, before any EMI
arithmetic runs; and with score at least 700 and the requested amount within
the pre-approved limit the decision is `approve` — provided the EMI
computation is defined, i.e. at least one month of tenure and a nonnegative
rate (the counterexample above shows `tenure_months = 0`, `annual_rate = 0`
raises `ZeroDivisionError` instead). -/
theorem C2_underwrite_decision_rules :
    (∀ (cid : String) (cust : Customer) (amount tenure : Int) (rate : ℚ)
       (sp : Option Int) (ssr : Option String),
       getCustomer cid = some cust → cust.credit_score < 700 →
       underwrite_loan cid amount tenure rate sp ssr =
         .ok (okEnvelope (.obj (.cons "decision" (.str "reject")
              (.cons "reason" (.str "credit_score_below_700")
              (.cons "credit_score" (.num cust.credit_score) .nil)))))) ∧
    (∀ (cid : String) (cust : Customer) (amount tenure : Int) (rate : ℚ)
       (sp : Option Int) (ssr : Option String),
       getCustomer cid = some cust → 700 ≤ cust.credit_score →
       amount ≤ cust.pre_approved_limit → 1 ≤ tenure → 0 ≤ rate →
       ∃ emi, underwrite_loan cid amount tenure rate sp ssr =
         .ok (okEnvelope (.obj (.cons "decision" (.str "approve")
              (.cons "emi" (.num emi)
              (.cons "reason" (.str "within_pre_approved_limit") .nil)))))) := by
  constructor
  · intro cid cust amount tenure rate sp ssr hc hs
    simp [underwrite_loan, hc, hs]
  · intro cid cust amount tenure rate sp ssr hc hs hlim ht hr
    obtain ⟨q, hq⟩ := compute_emi_isOk amount rate tenure hr ht
    refine ⟨q, ?_⟩
    simp [underwrite_loan, hc, not_lt.mpr hs, hlim, hq]

/-- Witness for C2: CUST004 (score 690) is rejected for the reason
`credit_score_below_700`; CUST001 (score 745) requesting 250000 within its
300000 limit at rate 0 over 36 months is approved. -/
theorem C2_underwrite_decision_rules_witness :
    underwrite_loan "CUST004" 100000 36 0 none none =
      .ok (okEnvelope (.obj (.cons "decision" (.str "reject")
           (.cons "reason" (.str "credit_score_below_700")
           (.cons "credit_score" (.num ((690 : Int) : ℚ)) .nil))))) ∧
    (∃ emi, underwrite_loan "CUST001" 250000 36 0 none none =
      .ok (okEnvelope (.obj (.cons "decision" (.str "approve")
           (.cons "emi" (.num emi)
           (.cons "reason" (.str "within_pre_approved_limit") .nil)))))) :=
  ⟨C2_underwrite_decision_rules.1 "CUST004"
      ⟨"Vikram Singh", 40, "Lucknow", "9810000004", "vikram@example.com",
       150000, 30000, 690⟩ 100000 36 0 none none rfl (by decide),
   C2_underwrite_decision_rules.2 "CUST001"
      ⟨"Asha Verma", 32, "Pune", "9810000001", "asha@example.com",
       300000, 60000, 745⟩ 250000 36 0 none none rfl (by decide) (by decide)
      (by decide) (le_refl 0)⟩

/-- The oracle output used as the C3 counterexample: it supplies a new
`max_interest_rate` of 0.0 and no other extraction. -/
def c3Response : Router :=
  { response_to_user := "", next_worker := "none"
    update_customer_id := none, update_requested_amount := none
    update_preferred_tenure := none, update_max_interest := some 0 }

/-- C3 counterexample.  When the oracle supplies `max_interest_rate = 0.0`,
the Python guard `if response.update_max_interest:` is falsy, so the Master
neither sets `max_interest_rate` nor clears `negotiated_offer` — the claim,
which quantifies over every supplied rate, fails at 0.0. -/
theorem C3_zero_rate_update_ignored :
    c3Response.update_max_interest = some 0 ∧
    (master_apply c3Response).max_interest_rate = none ∧
    (master_apply c3Response).negotiated_offer = none := by
  refine ⟨rfl, ?_, ?_⟩ <;> rfl

/-- C3 (amended).  Whenever the oracle supplies a nonzero (truthy)
`max_interest_rate`, the Master's update both sets `max_interest_rate` to it
and resets `negotiated_offer` to the empty dict, in the same partial update
(so no stale offer survives into the next Negotiation run); a supplied 0.0
is silently ignored. -/
theorem C3_nonzero_rate_update_sets_and_clears :
    ∀ (response : Router) (v : ℚ), response.update_max_interest = some v →
      v ≠ 0 →
      (master_apply response).max_interest_rate = some v ∧
      (master_apply response).negotiated_offer = some JObj.nil := by
  intro r v h hv
  constructor <;>
    simp [master_apply, h, truthyOptRat, hv,
      apply_ite MasterUpdates.max_interest_rate,
      apply_ite MasterUpdates.negotiated_offer]

/-- Witness for C3 at a concrete oracle output carrying rate 11. -/
theorem C3_nonzero_rate_update_sets_and_clears_witness :
    (master_apply
      { response_to_user := "ok", next_worker := "sales"
        update_customer_id := none, update_requested_amount := none
        update_preferred_tenure := none,
        update_max_interest := some 11 }).max_interest_rate = some 11 ∧
    (master_apply
      { response_to_user := "ok", next_worker := "sales"
        update_customer_id := none, update_requested_amount := none
        update_preferred_tenure := none,
        update_max_interest := some 11 }).negotiated_offer = some JObj.nil :=
  C3_nonzero_rate_update_sets_and_clears _ 11 rfl (by decide)

/-- C4.  For every tool payload the sanction finalizer sees — an `ok`
envelope is a JSON object, and an errored tool call leaves unparsable text
(spec §6 admits no other payload shape) — the finalizer reads
`sanction_letter_resource` and `sanction_letter_path` out of the payload's
result dict, and sets `sanction_letter_status` to `generated` exactly when
both reads are non-`None`, and to `failed` otherwise. -/
theorem C4_sanction_status_iff :
    ∀ (m : ToolMsg) (st : SanctionState),
      (m.parsed = none ∨ ∃ kvs, m.parsed = some (.obj kvs)) →
      ∃ st' : SanctionState,
        sanction_final_status_node (some m) st = .ok st' ∧
        (∃ kvs, parseOrRawWrap m = .obj kvs ∧
          st'.sanction_letter_resource =
            (sanction_result_dict kvs).getD "sanction_letter_resource" .null ∧
          st'.sanction_letter_path =
            (sanction_result_dict kvs).getD "sanction_letter_path" .null) ∧
        (st'.sanction_letter_status = .str "generated" ∨
          st'.sanction_letter_status = .str "failed") ∧
        (st'.sanction_letter_status = .str "generated" ↔
          (st'.sanction_letter_resource.isNone = false ∧
           st'.sanction_letter_path.isNone = false)) := by
  intro m st h
  have hk : ∃ kvs, parseOrRawWrap m = .obj kvs := by
    rcases h with h | ⟨kvs, h⟩
    · exact ⟨.cons "raw" (.str m.content) .nil, by simp [parseOrRawWrap, h]⟩
    · exact ⟨kvs, by simp [parseOrRawWrap, h]⟩
  obtain ⟨kvs, hk⟩ := hk
  refine ⟨⟨(sanction_result_dict kvs).getD "sanction_letter_resource" .null,
           (sanction_result_dict kvs).getD "sanction_letter_path" .null,
           .str (if !((sanction_result_dict kvs).getD
                       "sanction_letter_resource" .null).isNone &&
                    !((sanction_result_dict kvs).getD
                       "sanction_letter_path" .null).isNone
                 then "generated" else "failed")⟩,
         ?_, ⟨kvs, hk, rfl, rfl⟩, ?_, ?_⟩
  · simp [sanction_final_status_node, hk]
  · cases hb : (!((sanction_result_dict kvs).getD
                   "sanction_letter_resource" .null).isNone &&
                !((sanction_result_dict kvs).getD
                   "sanction_letter_path" .null).isNone) <;> simp [hb]
  · cases hr : ((sanction_result_dict kvs).getD
                 "sanction_letter_resource" .null).isNone <;>
      cases hp : ((sanction_result_dict kvs).getD
                   "sanction_letter_path" .null).isNone <;>
      simp [hr, hp]

/-- Witness for C4: a payload whose result dict carries both keys with
string values is finalized as `generated`. -/
theorem C4_sanction_status_iff_witness :
    ∃ st' : SanctionState,
      sanction_final_status_node
        (some ⟨"", some (.obj (.cons "result" (.obj
          (.cons "sanction_letter_resource" (.str "resource://s.pdf")
          (.cons "sanction_letter_path" (.str "storage/s.pdf") .nil))) .nil))⟩)
        ⟨.null, .null, .null⟩ = .ok st' ∧
      (∃ kvs, parseOrRawWrap ⟨"", some (.obj (.cons "result" (.obj
          (.cons "sanction_letter_resource" (.str "resource://s.pdf")
          (.cons "sanction_letter_path" (.str "storage/s.pdf") .nil))) .nil))⟩ =
            .obj kvs ∧
        st'.sanction_letter_resource =
          (sanction_result_dict kvs).getD "sanction_letter_resource" .null ∧
        st'.sanction_letter_path =
          (sanction_result_dict kvs).getD "sanction_letter_path" .null) ∧
      (st'.sanction_letter_status = .str "generated" ∨
        st'.sanction_letter_status = .str "failed") ∧
      (st'.sanction_letter_status = .str "generated" ↔
        (st'.sanction_letter_resource.isNone = false ∧
         st'.sanction_letter_path.isNone = false)) :=
  C4_sanction_status_iff _ ⟨.null, .null, .null⟩ (Or.inr ⟨_, rfl⟩)

/-- Outcome of one `POST /chat` call in `api.py`. -/
inductive ApiOutcome where
  | response (text : String) (stage : String)
  | httpError (status : ℕ) (detail : String)
deriving Repr, DecidableEq

/-- The invoke-and-catch step of `chat_endpoint` in `api.py`:
`graph.ainvoke(..., recursion_limit 20)` either returns a final state or
raises (`GraphRecursionError` when the limit is exhausted); the endpoint
converts any exception into an HTTP 500 error and skips saving the session
state — no state field is marked failed. -/
def chat_endpoint_outcome (invoke : Except String (String × String)) :
    ApiOutcome :=
  match invoke with
  | .error e => .httpError 500 e
  | .ok (text, stage) => .response text stage

/-- C7 counterexample.  Against an oracle that keeps proposing tool calls,
the verification worker graph is still looping after 24 engine steps,
having already run 12 oracle rounds — beyond the claimed cap of 10 — with
no error-marked finalization. -/
theorem C7_loop_exceeds_cap :
    vrun (fun _ => true) 24 = (VNode.llm, 12) ∧
    (vrun (fun _ => true) 24).1 ≠ VNode.final ∧
    10 < (vrun (fun _ => true) 24).2 := by decide

/-- C7 (amended).  The worker graphs wire `tool_node → llm_node` back
unconditionally with no round counter, so the tool-call loop has no internal
cap: an oracle that always proposes a tool call keeps it in the
`llm → tool → llm` cycle forever, `n` rounds after `2n` steps, never
reaching finalization.  The only bound is the orchestrator-level
`recursion_limit` of 20 that `api.py` passes, whose exhaustion surfaces as
an exception which `chat_endpoint` converts to an HTTP 500 error — not to a
failed-marked finalization. -/
theorem C7_loop_has_no_internal_cap :
    (∀ n : ℕ, vrun (fun _ => true) (2 * n) = (VNode.llm, n)) ∧
    (∀ k : ℕ, (vrun (fun _ => true) k).1 ≠ VNode.final ∧
              (vrun (fun _ => true) k).1 ≠ VNode.done) ∧
    (∀ e : String, chat_endpoint_outcome (.error e) = .httpError 500 e) := by
  have key : ∀ k : ℕ, vrun (fun _ => true) k =
      if k % 2 = 0 then (VNode.llm, k / 2) else (VNode.tool, k / 2 + 1) := by
    intro k
    induction k with
    | zero => rfl
    | succ k ih =>
      have hs : vrun (fun _ => true) (k + 1) =
          vstep (fun _ => true) (vrun (fun _ => true) k) :=
        Function.iterate_succ_apply' _ _ _
      rw [hs, ih]
      rcases Nat.even_or_odd k with he | ho
      · have h0 : k % 2 = 0 := Nat.even_iff.mp he
        have h1 : (k + 1) % 2 = 1 := by omega
        have h2 : (k + 1) / 2 = k / 2 := by omega
        simp [h0, h1, h2, vstep]
      · have h0 : k % 2 = 1 := Nat.odd_iff.mp ho
        have h1 : (k + 1) % 2 = 0 := by omega
        have h2 : (k + 1) / 2 = k / 2 + 1 := by omega
        simp [h0, h1, h2, vstep]
  refine ⟨?_, ?_, fun e => rfl⟩
  · intro n
    have h0 : (2 * n) % 2 = 0 := by omega
    have h1 : (2 * n) / 2 = n := by omega
    rw [key, if_pos h0, h1]
  · intro k
    rw [key]
    rcases Nat.decEq (k % 2) 0 with h | h
    · simp [h]
    · simp [h]

/-- Merging a batch through `add_messages` never shortens the channel. -/
theorem addMessages_length_le (xs ys : List Msg) :
    xs.length ≤ (addMessages xs ys).length := by
  induction ys generalizing xs with
  | nil => simp [addMessages]
  | cons y ys ih =>
    have hstep : addMessages xs (y :: ys) =
        addMessages
          (if xs.any (fun m => m.id == y.id) then
            xs.map (fun m => if m.id = y.id then y else m)
          else xs ++ [y]) ys := by
      simp [addMessages]
    rw [hstep]
    refine le_trans ?_ (ih _)
    by_cases h : xs.any (fun m => m.id == y.id)
    · simp [h]
    · simp [h]

/-- Merging a batch of fresh-id messages is a plain append: no existing
entry is rewritten. -/
theorem addMessages_fresh_append (xs ys : List Msg)
    (hnodup : (ys.map Msg.id).Nodup)
    (hfresh : ∀ y ∈ ys, ∀ x ∈ xs, y.id ≠ x.id) :
    addMessages xs ys = xs ++ ys := by
  induction ys generalizing xs with
  | nil => simp [addMessages]
  | cons y ys ih =>
    have hy : xs.any (fun m => m.id == y.id) = false := by
      simp only [List.any_eq_false, beq_iff_eq]
      intro m hm
      exact fun hmy => hfresh y (by simp) m hm hmy.symm
    have hstep : addMessages xs (y :: ys) = addMessages (xs ++ [y]) ys := by
      simp only [addMessages, List.foldl_cons, hy, Bool.false_eq_true,
        if_false]
    rw [hstep, ih (xs ++ [y]) (by
        simpa using hnodup.of_cons)
      (by
        intro z hz x hx
        rcases List.mem_append.mp hx with hx | hx
        · exact hfresh z (by simp [hz]) x hx
        · have hzy : z.id ≠ y.id := by
            have hyni : y.id ∉ ys.map Msg.id := by
              simpa using (List.nodup_cons.mp hnodup).1
            intro hcontra
            exact hyni (by
              rw [← hcontra]
              exact List.mem_map.mpr ⟨z, hz, rfl⟩)
          simpa [List.mem_singleton.mp hx] using hzy)]
    simp

/-- C9.  The shared `messages` channel is append-only across user turns:
one `advance` — the user message append in `chat_endpoint` followed by the
`add_messages` merges of each graph node's output — never shortens the
channel; and since every component emits only freshly-identified messages,
each merge is a plain append that leaves all past entries in place. -/
theorem C9_transcript_append_only :
    (∀ (msgs : List Msg) (user : Msg) (outs : List (List Msg)),
        msgs.length ≤ (advanceMessages msgs user outs).length) ∧
    (∀ (xs ys : List Msg), (ys.map Msg.id).Nodup →
        (∀ y ∈ ys, ∀ x ∈ xs, y.id ≠ x.id) →
        addMessages xs ys = xs ++ ys) := by
  constructor
  · intro msgs user outs
    have haux : ∀ (outs : List (List Msg)) (acc : List Msg),
        acc.length ≤ (outs.foldl addMessages acc).length := by
      intro outs
      induction outs with
      | nil => intro acc; simp
      | cons o os ih =>
        intro acc
        exact le_trans (addMessages_length_le acc o) (by simpa using ih _)
    calc msgs.length ≤ (msgs ++ [user]).length := by simp
      _ ≤ _ := haux outs (msgs ++ [user])
  · intro xs ys h1 h2
    exact addMessages_fresh_append xs ys h1 h2

/-- Witness for C9: a session with one prior entry grows through an advance
and a fresh assistant message appends without rewriting the history. -/
theorem C9_transcript_append_only_witness :
    ([⟨1, "user", "hi"⟩] : List Msg).length ≤
      (advanceMessages [⟨1, "user", "hi"⟩] ⟨2, "user", "I need a loan"⟩
        [[⟨3, "assistant", "sure"⟩]]).length ∧
    addMessages [⟨1, "user", "hi"⟩] [⟨3, "assistant", "sure"⟩] =
      [⟨1, "user", "hi"⟩, ⟨3, "assistant", "sure"⟩] :=
  ⟨C9_transcript_append_only.1 [⟨1, "user", "hi"⟩] ⟨2, "user", "I need a loan"⟩
      [[⟨3, "assistant", "sure"⟩]],
   C9_transcript_append_only.2 [⟨1, "user", "hi"⟩] [⟨3, "assistant", "sure"⟩]
      (by decide) (by decide)⟩

/-- C10.  For every known customer and every phone string, `verify_kyc`
succeeds with `address_verified = true`, so feeding its (parsed) payload to
the verification finalizer yields `verified` exactly when the supplied
phone equals the stored one and `pending` otherwise — never `failed`. -/
theorem C10_verify_kyc_no_failed_status :
    ∀ (cid : String) (cust : Customer) (phone s : String),
      getCustomer cid = some cust →
      ∃ (j : Json) (status : String),
        verify_kyc cid phone = .ok j ∧
        verification_final_status_node (some ⟨s, some j⟩) = .ok (status, j) ∧
        status = (if cust.phone == phone then "verified" else "pending") ∧
        status ≠ "failed" := by
  intro cid cust phone s hc
  refine ⟨okEnvelope (.obj (.cons "phone_verified" (.bool (cust.phone == phone))
            (.cons "address_verified" (.bool true) .nil))),
          (if cust.phone == phone then "verified" else "pending"),
          ?_, ?_, rfl, ?_⟩
  · simp [verify_kyc, hc]
  · cases hb : cust.phone == phone <;>
      simp [verification_final_status_node, parseOrRawWrap, okEnvelope,
        JObj.get, JObj.getD, Json.truthy, hb]
  · cases hb : cust.phone == phone <;> simp

/-- Witness for C10: CUST001 with its stored phone is finalized `verified`;
in particular the status is not `failed`. -/
theorem C10_verify_kyc_no_failed_status_witness :
    ∃ (j : Json) (status : String),
      verify_kyc "CUST001" "9810000001" = .ok j ∧
      verification_final_status_node (some ⟨"", some j⟩) = .ok (status, j) ∧
      status ≠ "failed" := by
  obtain ⟨j, status, h1, h2, _, h4⟩ :=
    C10_verify_kyc_no_failed_status "CUST001"
      ⟨"Asha Verma", 32, "Pune", "9810000001", "asha@example.com",
       300000, 60000, 745⟩ "9810000001" "" rfl
  exact ⟨j, status, h1, h2, h4⟩
